import Mathlib

/-!
Verification development for the whats-new-summary-notifier repository.

The two Lambda entry points are shallowly embedded:
- namespace Digest models src/lambda/markdown-generator/index.py
- namespace Notify models src/lambda/notify-to-app/index.py

External collaborators (DynamoDB, SSM, S3, Slack, Bedrock, HTTP) are
modelled as oracle functions carried in an environment record; Python
exceptions are modelled with Except over an explicit error-kind type.
-/

/-- PyVal models the JSON-shaped values that can arrive in a Lambda event
field such as event["days"]: an integer, or any non-integer value
(collapsed to a string) that makes datetime.timedelta raise TypeError. -/
inductive PyVal where
  | int (n : Int)
  | str (s : String)
deriving DecidableEq

/-- PyError models the Python exception kinds that the embedded code can
raise or be handed by an oracle.  The constructor malformedSummaryError is
the distinct error kind posited by the specification for a summarizer
response missing its delimiters; the source code never produces it (it
raises indexError from re.findall(...)[0] instead), and it is present only
so that the specification claim about it can be stated. -/
inductive PyError where
  | indexError
  | keyError (k : String)
  | typeError
  | urlError
  | clientError (code : String)
  | unboundLocalError
  | malformedSummaryError
deriving DecidableEq

/-- pyValStr models Python str() on a PyVal, as used by f-string
interpolation of event["days"]. -/
def pyValStr : PyVal → String
  | .int n => toString n
  | .str s => s

/-- pyErrorStr models Python str(e) for the modelled exception kinds; the
exact text only matters for equality of two identically-built results. -/
def pyErrorStr : PyError → String
  | .indexError => "list index out of range"
  | .keyError k => k
  | .typeError => "unsupported type for timedelta days component"
  | .urlError => "urlopen error"
  | .clientError code => code
  | .unboundLocalError => "cannot access local variable"
  | .malformedSummaryError => "malformed summary"

/-- pyTimedeltaDays models datetime.timedelta(days=v): an int is accepted,
any other value raises TypeError. -/
def pyTimedeltaDays : PyVal → Except PyError Int
  | .int n => .ok n
  | .str _ => .error .typeError

/-! ## Calendar model for datetime.datetime

Only the fields that the source formats (year, month, day, and the time of
day for isoformat) are carried.  Day arithmetic uses the standard
civil-from-days / days-from-civil conversions on the proleptic Gregorian
calendar, matching Python date arithmetic. -/

structure DateTime where
  year : Int
  month : Int
  day : Int
  hour : Nat := 0
  minute : Nat := 0
  second : Nat := 0
  microsecond : Nat := 0
deriving DecidableEq

/-- daysFromCivil converts a proleptic Gregorian date to a day count
(days since 1970-01-01). -/
def daysFromCivil (y m d : Int) : Int :=
  let y := if m ≤ 2 then y - 1 else y
  let era := y.fdiv 400
  let yoe := y - era * 400
  let mp := (m + 9).emod 12
  let doy := (153 * mp + 2).fdiv 5 + d - 1
  let doe := yoe * 365 + yoe.fdiv 4 - yoe.fdiv 100 + doy
  era * 146097 + doe - 719468

/-- civilFromDays converts a day count back to a proleptic Gregorian date. -/
def civilFromDays (z : Int) : Int × Int × Int :=
  let z := z + 719468
  let era := z.fdiv 146097
  let doe := z - era * 146097
  let yoe := (doe - doe.fdiv 1460 + doe.fdiv 36524 - doe.fdiv 146096).fdiv 365
  let y := yoe + era * 400
  let doy := doe - (365 * yoe + yoe.fdiv 4 - yoe.fdiv 100)
  let mp := (5 * doy + 2).fdiv 153
  let d := doy - (153 * mp + 2).fdiv 5 + 1
  let m := mp + (if mp < 10 then 3 else -9)
  (if m ≤ 2 then y + 1 else y, m, d)

/-- subDays models python_datetime - datetime.timedelta(days=n): the date
part moves by n days, the time of day is unchanged. -/
def subDays (dt : DateTime) (n : Int) : DateTime :=
  let c := civilFromDays (daysFromCivil dt.year dt.month dt.day - n)
  { dt with year := c.1, month := c.2.1, day := c.2.2 }

/-- pad2 renders a nonnegative integer zero-padded to two digits, as
strftime %m / %d / %H / %M / %S do. -/
def pad2 (n : Int) : String :=
  if n < 10 then "0" ++ toString n else toString n

/-- pad4 renders a nonnegative integer zero-padded to four digits, as
strftime %Y does. -/
def pad4 (n : Int) : String :=
  if n < 10 then "000" ++ toString n
  else if n < 100 then "00" ++ toString n
  else if n < 1000 then "0" ++ toString n
  else toString n

/-- pad6 renders a nonnegative integer zero-padded to six digits, as
isoformat renders a nonzero microsecond field. -/
def pad6 (n : Nat) : String :=
  let s := toString n
  let l := s.length
  (String.mk (List.replicate (6 - l) (Char.ofNat 48))) ++ s

/-- fmtYmd models strftime("%Y-%m-%d"). -/
def fmtYmd (dt : DateTime) : String :=
  pad4 dt.year ++ "-" ++ pad2 dt.month ++ "-" ++ pad2 dt.day

/-- fmtYmdCompact models strftime("%Y%m%d"). -/
def fmtYmdCompact (dt : DateTime) : String :=
  pad4 dt.year ++ pad2 dt.month ++ pad2 dt.day

/-- fmtYslash models strftime("%Y/%m/%d"). -/
def fmtYslash (dt : DateTime) : String :=
  pad4 dt.year ++ "/" ++ pad2 dt.month ++ "/" ++ pad2 dt.day

/-- isoformat models datetime.isoformat(): the microsecond part is
omitted when it is zero, exactly as in Python. -/
def isoformat (dt : DateTime) : String :=
  fmtYmd dt ++ "T" ++ pad2 (dt.hour : Int) ++ ":" ++ pad2 (dt.minute : Int)
    ++ ":" ++ pad2 (dt.second : Int)
    ++ (if dt.microsecond == 0 then "" else "." ++ pad6 dt.microsecond)

/-! ## Lexicographic string comparison

Python compares strings lexicographically by code point; lexLe / strLe
model the Python <= on strings (so Python s >= t is strLe t s). -/

def lexLe : List Char → List Char → Bool
  | [], _ => true
  | _ :: _, [] => false
  | a :: as, b :: bs =>
    if a.toNat < b.toNat then true
    else if b.toNat < a.toNat then false
    else lexLe as bs

/-- strLe s t models the Python string comparison s <= t. -/
def strLe (s t : String) : Bool :=
  lexLe s.data t.data

/-! ## Stable insertion sort

Python list.sort(key=...) sorts ascending; sortLe is a structural
insertion sort used as its executable model. -/

def insertLe (le : α → α → Bool) (a : α) : List α → List α
  | [] => [a]
  | b :: bs => if le a b then a :: b :: bs else b :: insertLe le a bs

def sortLe (le : α → α → Bool) : List α → List α
  | [] => []
  | a :: as => insertLe le a (sortLe le as)

/-! ## Digest path: src/lambda/markdown-generator/index.py -/

namespace Digest

/-- Record models one DynamoDB item of the history table as the
markdown-generator reads it: every field access in the source goes through
item.get(...) or an explicit presence check, so each field is optional. -/
structure Record where
  url : Option String := none
  title : Option String := none
  category : Option String := none
  pubtime : Option String := none
  detail : Option String := none
  summary : Option String := none
deriving DecidableEq

/-- pubkey is the sort/filter key lambda x: x["pubtime"] (the source only
applies it to items whose pubtime is present; getD "" is the value used
for the impossible missing case). -/
def pubkey (r : Record) : String :=
  r.pubtime.getD ""

/-- recordLe is the ascending comparison underlying
filtered_items.sort(key=lambda x: x["pubtime"], reverse=False). -/
def recordLe (a b : Record) : Bool :=
  strLe (pubkey a) (pubkey b)

/-- scan_filter_sort is the body of the try block of
get_news_from_last_n_days: scan the whole table (pagination is
transparent, so the oracle returns the full item list or one error),
keep the items that have a pubtime with pubtime >= start_date (a Python
string comparison), and sort ascending by pubtime.  Any scan exception is
caught and turned into an empty list. -/
def scan_filter_sort (scan : Except PyError (List Record)) (start_date : String) :
    List Record :=
  match scan with
  | .error _ => []
  | .ok items =>
    sortLe recordLe (items.filter fun r => r.pubtime.isSome && strLe start_date (pubkey r))

/-- get_news_from_last_n_days: start_date = (now - timedelta(days=days)).isoformat()
is computed before the try block, so a non-integer days value raises
TypeError out of the function; every exception inside the try block
yields an empty list. -/
def get_news_from_last_n_days (scan : Except PyError (List Record)) (days : PyVal)
    (now : DateTime) : Except PyError (List Record) :=
  match pyTimedeltaDays days with
  | .error e => .error e
  | .ok d => .ok (scan_filter_sort scan (isoformat (subDays now d)))

/-- categoryOf models item.get("category", "その他"). -/
def categoryOf (r : Record) : String :=
  r.category.getD "その他"

/-- Groups holds the two fixed groups of group_news_by_category_type, in
the insertion order of the source dict: "whats-new" then "others". -/
structure Groups where
  whatsNew : List Record
  others : List Record
deriving DecidableEq

/-- group_news_by_category_type: a record whose category is in the
rule list ["Whats new"] goes to the whats-new group, every other record
goes to the others group, each appended in input order. -/
def group_news_by_category_type : List Record → Groups
  | [] => ⟨[], []⟩
  | item :: rest =>
    let g := group_news_by_category_type rest
    if ["Whats new"].contains (categoryOf item) then
      ⟨item :: g.whatsNew, g.others⟩
    else
      ⟨g.whatsNew, item :: g.others⟩

/-- categorize_news builds a dict from category to the matching items in
input order; since generate_markdown only consumes it through
sorted(categorized_news.items()), it is modelled by its sorted key list
paired with the per-key filter. -/
def categorize_news_sorted_keys (news_items : List Record) : List String :=
  sortLe strLe ((news_items.map categoryOf).dedup)

/-- isDigit10 tests an ASCII decimal digit. -/
def isDigit10 (c : Char) : Bool :=
  48 ≤ c.toNat && c.toNat ≤ 57

/-- digitVal is the numeric value of an ASCII digit. -/
def digitVal (c : Char) : Int :=
  (c.toNat : Int) - 48

/-- daysInMonth of the proleptic Gregorian calendar. -/
def daysInMonth (y m : Int) : Int :=
  if m = 2 then
    if y.emod 4 = 0 && (y.emod 100 ≠ 0 || y.emod 400 = 0) then 29 else 28
  else if m = 4 || m = 6 || m = 9 || m = 11 then 30
  else 31

/-- fromisoformat_date models datetime.datetime.fromisoformat as far as
generate_markdown consumes it (it immediately formats the result with
strftime("%Y-%m-%d"), so only the date part is kept): the string must
start with a valid zero-padded YYYY-MM-DD, followed by nothing or by a
date/time separator and a time part, which this model does not validate
further. -/
def fromisoformat_date (s : String) : Option (Int × Int × Int) :=
  match s.data with
  | y1 :: y2 :: y3 :: y4 :: sep1 :: m1 :: m2 :: sep2 :: d1 :: d2 :: rest =>
    if isDigit10 y1 && isDigit10 y2 && isDigit10 y3 && isDigit10 y4 &&
        (sep1 = '-' : Bool) && isDigit10 m1 && isDigit10 m2 &&
        (sep2 = '-' : Bool) && isDigit10 d1 && isDigit10 d2 then
      let y := 1000 * digitVal y1 + 100 * digitVal y2 + 10 * digitVal y3 + digitVal y4
      let m := 10 * digitVal m1 + digitVal m2
      let d := 10 * digitVal d1 + digitVal d2
      if 1 ≤ m && m ≤ 12 && 1 ≤ d && d ≤ daysInMonth y m &&
          (rest.isEmpty || rest.headD ' ' = 'T' || rest.headD ' ' = ' ') then
        some (y, m, d)
      else
        none
    else
      none
  | _ => none

/-- GroupName enumerates the keys of the fixed CATEGORY_GROUPS tables
("whats-new" and "others"); the source only ever indexes them with these
two names. -/
inductive GroupName where
  | whatsNew
  | others
deriving DecidableEq

/-- groupKey is the dict key / group_name string of a group. -/
def groupKey : GroupName → String
  | .whatsNew => "whats-new"
  | .others => "others"

/-- displayName is CATEGORY_GROUPS[group]["display_name"] as defined in
generate_markdown ("What's New" / "AWS Blog"). -/
def displayName : GroupName → String
  | .whatsNew => "What\x27s New"
  | .others => "AWS Blog"

/-- descriptionOf is CATEGORY_GROUPS[group]["description"].format(days=days)
from generate_markdown. -/
def descriptionOf (g : GroupName) (days : Int) : String :=
  match g with
  | .whatsNew => "過去" ++ toString days ++ "日間のAWS What\x27s New情報の週間サマリーです。"
  | .others => "過去" ++ toString days ++ "日間のAWS Blog情報の週間サマリーです。"

/-- renderItem is the per-record block of generate_markdown: a linked
title (with placeholder fallbacks), a publish date re-formatted from the
ISO timestamp or echoed verbatim when parsing fails, and the detail text
when present (Python string truthiness: nonempty). -/
def renderItem (item : Record) : String :=
  let title := item.title.getD "タイトルなし"
  let url := item.url.getD ""
  let pubtime := item.pubtime.getD ""
  let detail := item.detail.getD ""
  let pub_date :=
    match fromisoformat_date pubtime with
    | some (y, m, d) => pad4 y ++ "-" ++ pad2 m ++ "-" ++ pad2 d
    | none => pubtime
  "### [" ++ title ++ "](" ++ url ++ ")\n" ++
    "**公開日:** " ++ pub_date ++ "\n\n" ++
    (if detail = "" then "" else detail ++ "\n\n")

/-- categoryBlock is one "## category" section of generate_markdown. -/
def categoryBlock (news_items : List Record) (c : String) : String :=
  "## " ++ c ++ "\n\n" ++
    String.join ((news_items.filter fun r => categoryOf r == c).map renderItem)

/-- generate_markdown.  The source reads the wall clock itself:
end_date = datetime.datetime.now() and start_date = end_date - timedelta(days);
the clock reading is passed here as the explicit parameter now. -/
def generate_markdown (news_items : List Record) (group_name : GroupName)
    (days : Int) (now : DateTime) : String :=
  let date_range := fmtYmd (subDays now days) ++ " から " ++ fmtYmd now
  "# AWS 週間アップデート情報 - " ++ displayName group_name ++ " (" ++ date_range ++ ")\n\n" ++
    descriptionOf group_name days ++ "\n\n" ++
    String.join ((categorize_news_sorted_keys news_items).map (categoryBlock news_items))

end Digest

namespace Digest

/-- DigestEnv carries the external collaborators and ambient state the
markdown-generator Lambda touches: the DynamoDB scan (pagination folded
into one result), the optional S3 bucket name, the S3 put oracle, the two
SSM-backed Slack parameters (None models a failed parameter fetch, which
get_parameter_value converts to None), the Slack upload oracle (returning
the response "ok" flag), and the wall clock. -/
structure DigestEnv where
  scan : Except PyError (List Record)
  s3BucketName : Option String
  putObject : String → String → Except PyError Unit
  slackChannelId : Option String
  slackToken : Option String
  slackUpload : String → String → String → String → Except PyError Bool
  now : DateTime

/-- save_to_s3: no bucket configured yields False; a put_object exception
is caught and yields False; otherwise True.  The object key is
weekly-summaries/{group}/{filename}. -/
def save_to_s3 (env : DigestEnv) (markdown_content : String) (group_name : GroupName)
    (filename : String) : Bool :=
  match env.s3BucketName with
  | none => false
  | some _ =>
    let group_filename := "weekly-summaries/" ++ groupKey group_name ++ "/" ++ filename
    match env.putObject group_filename markdown_content with
    | .ok _ => true
    | .error _ => false

/-- fileSuffix is CATEGORY_GROUPS[group]["file_suffix"] in push_to_slack. -/
def fileSuffix : GroupName → String
  | .whatsNew => "whats-new"
  | .others => "aws-blog"

/-- emojiOf is CATEGORY_GROUPS[group]["emoji"] in push_to_slack. -/
def emojiOf : GroupName → String
  | .whatsNew => "🎉"
  | .others => "📰"

/-- push_to_slack: a missing channel id or token yields False; a Slack API
or transport exception is caught and yields False; otherwise the response
"ok" flag decides the result. -/
def push_to_slack (env : DigestEnv) (markdown_content : String) (_s3_location : String)
    (news_count : Nat) (group_name : GroupName) : Bool :=
  match env.slackChannelId with
  | none => false
  | some channel_id =>
    match env.slackToken with
    | none => false
    | some _ =>
      let file_name := fmtYmdCompact env.now ++ "-" ++ fileSuffix group_name ++ "-updates.md"
      let initial_message := "AWS 週間アップデート情報 - " ++ displayName group_name ++ " "
        ++ emojiOf group_name ++ "\n更新件数: " ++ toString news_count ++ "件"
      match env.slackUpload channel_id markdown_content file_name initial_message with
      | .ok ok => ok
      | .error _ => false

/-- GroupResponse is the per-group entry the handler puts into
response_data["groups"]; optional fields model keys that are only
sometimes added to the dict. -/
structure GroupResponse where
  news_count : Nat
  filename : String
  s3_location : Option String := none
  slack_notification : Option String := none
  s3_save : Option String := none
deriving DecidableEq

/-- HandlerBody is the structured value the handler passes to json.dumps
in each return: kept structured because json.dumps is injective on the
shapes involved. -/
inductive HandlerBody where
  | notFound (message : String)
  | failure (error : String)
  | success (message : String) (groups : List (String × GroupResponse))
deriving DecidableEq

/-- Response is the handler's return value: a statusCode and a body. -/
structure Response where
  statusCode : Nat
  body : HandlerBody
deriving DecidableEq

/-- processGroup is one iteration of the handler's per-group loop for a
nonempty group: build the filename, render the markdown, and when a
bucket is configured attempt the S3 save and, on success, the Slack
notification. -/
def processGroup (env : DigestEnv) (days : Int) (group_name : GroupName)
    (group_items : List Record) : GroupResponse :=
  let filename := fmtYslash env.now ++ "/" ++ fmtYmdCompact env.now ++ "-"
    ++ fileSuffix group_name ++ "-updates.md"
  let markdown_content := generate_markdown group_items group_name days env.now
  let base : GroupResponse := { news_count := group_items.length, filename := filename }
  match env.s3BucketName with
  | none => base
  | some bucket =>
    if save_to_s3 env markdown_content group_name filename then
      let s3_url := "s3://" ++ bucket ++ "/weekly-summaries/" ++ groupKey group_name
        ++ "/" ++ filename
      let slack_success := push_to_slack env markdown_content s3_url group_items.length group_name
      { base with
          s3_location := some s3_url,
          slack_notification := some (if slack_success then "success" else "failed") }
    else
      { base with s3_save := some "failed", slack_notification := some "skipped" }

/-- handler for the markdown-generator Lambda.  Everything runs inside one
try block; the only operation there that can raise is
timedelta(days=days) inside get_news_from_last_n_days (scan, S3 and Slack
failures are all caught locally), and the except clause converts any
exception into a 500 response.  days models event.get("days", 7). -/
def handler (env : DigestEnv) (days : PyVal) : Response :=
  match pyTimedeltaDays days with
  | .error e => ⟨500, .failure (pyErrorStr e)⟩
  | .ok d =>
    let news_items := scan_filter_sort env.scan (isoformat (subDays env.now d))
    if news_items.isEmpty then
      ⟨404, .notFound ("過去" ++ pyValStr days ++ "日間のニュースが見つかりませんでした")⟩
    else
      let grouped := group_news_by_category_type news_items
      let g1 :=
        if grouped.whatsNew.isEmpty then []
        else [("whats-new", processGroup env d .whatsNew grouped.whatsNew)]
      let g2 :=
        if grouped.others.isEmpty then []
        else [("others", processGroup env d .others grouped.others)]
      ⟨200, .success "週間サマリーのMarkdownファイルが正常に生成されました" (g1 ++ g2)⟩

end Digest

/-! ## Notification path: src/lambda/notify-to-app/index.py -/

namespace Notify

/-- Item is the dict that get_new_entries builds for one accepted change
event and push_notification later mutates by adding "summary" and
"detail"; the two optional fields model those not-yet-added keys. -/
structure Item where
  rss_category : String
  rss_time : String
  rss_title : String
  rss_link : String
  rss_notifier_name : String
  summary : Option String := none
  detail : Option String := none
deriving DecidableEq

/-- NewImage holds the DynamoDB stream NewImage attributes that
get_new_entries reads unconditionally (entry["dynamodb"]["NewImage"][...]["S"]);
the stream contract guarantees their presence for INSERT and MODIFY
events. -/
structure NewImage where
  category : String
  pubtime : String
  title : String
  url : String
  notifier_name : String
deriving DecidableEq

/-- OldImage holds the prior-image attributes get_new_entries reads
defensively (old_image.get("title", {}).get("S")); each may be absent. -/
structure OldImage where
  title : Option String := none
  url : Option String := none
deriving DecidableEq

/-- StreamEntry is one raw DynamoDB stream record: an eventName and the
new/old images under the "dynamodb" key; OldImage as a whole may be
absent from the event. -/
structure StreamEntry where
  eventName : String
  newImage : NewImage
  oldImage : Option OldImage := none
deriving DecidableEq

/-- oldTitleOf models entry["dynamodb"].get("OldImage", {}).get("title", {}).get("S"). -/
def oldTitleOf (e : StreamEntry) : Option String :=
  match e.oldImage with
  | none => none
  | some o => o.title

/-- oldUrlOf models entry["dynamodb"].get("OldImage", {}).get("url", {}).get("S"). -/
def oldUrlOf (e : StreamEntry) : Option String :=
  match e.oldImage with
  | none => none
  | some o => o.url

/-- newDataOf is the new_data dict built from the NewImage fields. -/
def newDataOf (e : StreamEntry) : Item :=
  { rss_category := e.newImage.category
    rss_time := e.newImage.pubtime
    rss_title := e.newImage.title
    rss_link := e.newImage.url
    rss_notifier_name := e.newImage.notifier_name }

/-- get_new_entries: INSERT and MODIFY events are examined, any other
eventName is skipped; a MODIFY event is additionally skipped (continue)
when both the old title and the old url carried in the event equal the
new values; accepted events are appended in input order. -/
def get_new_entries : List StreamEntry → List Item
  | [] => []
  | entry :: rest =>
    if entry.eventName = "INSERT" ∨ entry.eventName = "MODIFY" then
      let new_data := newDataOf entry
      if entry.eventName = "MODIFY" ∧ oldTitleOf entry = some new_data.rss_title ∧
          oldUrlOf entry = some new_data.rss_link then
        get_new_entries rest
      else
        new_data :: get_new_entries rest
    else
      get_new_entries rest

/-- NotifierCfg is one entry of the NOTIFIERS configuration table. -/
structure NotifierCfg where
  webhookUrlParameterName : String
  destination : String
  summarizerName : String
deriving DecidableEq

/-- SummarizerCfg is one entry of the SUMMARIZERS configuration table. -/
structure SummarizerCfg where
  outputLanguage : String
  persona : String
deriving DecidableEq

/-- pyStr models Python str-conversion by f-string interpolation of a
possibly-None value: None is rendered as the four characters "None". -/
def pyStr : Option String → String
  | none => "None"
  | some s => s

/-- mkSystem is the persona_data f-string passed as the system prompt. -/
def mkSystem (persona : String) : String :=
  "\n    <persona> " ++ persona ++ " </persona>\n    "

/-- mkPrompt is the prompt_data f-string of summarize_blog with blog_body
and language interpolated. -/
def mkPrompt (blog_body : String) (language : String) : String :=
  "\n    <input>" ++ blog_body ++ "</input>\n    <instruction>Describe a new update in <input></input> tags in bullet points to describe \"What is described\", \"Who is this update good for\" in a way that a new engineer can follow. \n    Description shall be output in <thinking></thinking> tags and each thinking sentence must start with the bullet point \"- \" . \n    Make final summary as per <summaryRule></summaryRule> tags. \n    Try to shorten output for easy reading. \n    You are not allowed to utilize any information except in the input. \n    Output format shall be in accordance with <outputFormat></outputFormat> tags.</instruction>\n    <outputLanguage> " ++ language ++ " </outputLanguage>\n    <summaryRule>The final summary must consist of at least three sentences, including specific use cases in which it is useful.\n    Output format is defined in <outputFormat></outputFormat> tags.</summaryRule>\n    <outputFormat><thinking>(bullet points of the input)</thinking><summary>(final summary)</summary></outputFormat>\n    Follow the instruction.\n    "

/-- afterFirst pat l is the remaining suffix after the first occurrence of
pat in l, or none when pat does not occur. -/
def afterFirst (pat : List Char) : List Char → Option (List Char)
  | [] => if pat.isEmpty then some [] else none
  | c :: rest =>
    if pat.isPrefixOf (c :: rest) then some ((c :: rest).drop pat.length)
    else afterFirst pat rest

/-- upToFirst pat l is the prefix of l before the first occurrence of pat,
or none when pat does not occur. -/
def upToFirst (pat : List Char) : List Char → Option (List Char)
  | [] => if pat.isEmpty then some [] else none
  | c :: rest =>
    if pat.isPrefixOf (c :: rest) then some []
    else (upToFirst pat rest).map (c :: ·)

/-- extractBetween models re.findall(open([\s\S]*?)close, s)[0]: the text
between the first occurrence of the opening tag and the first following
occurrence of the closing tag, or none when re.findall returns no match
(in which case indexing [0] raises IndexError). -/
def extractBetween (openTag closeTag s : String) : Option String :=
  match afterFirst openTag.data s.data with
  | none => none
  | some rest =>
    match upToFirst closeTag.data rest with
    | none => none
    | some inner => some (String.mk inner)

/-- summarize_blog: builds the prompt with the (possibly None) blog body
interpolated and invokes the model.  A ClientError with code
AccessDeniedException is caught and merely printed, after which the
function falls through to "return summary, detail" with both names
unbound, raising UnboundLocalError; any other ClientError is re-raised.
On a successful model response, outputText is "<output>" prepended to the
response text, and the summary and detail sections are extracted with
re.findall(...)[0], which raises IndexError when a delimiter is missing. -/
def summarize_blog (llm : String → String → Except PyError String)
    (blog_body : Option String) (language : String) (persona : String) :
    Except PyError (String × String) :=
  let prompt := mkPrompt (pyStr blog_body) language
  match llm (mkSystem persona) prompt with
  | .error (.clientError code) =>
    if code = "AccessDeniedException" then .error .unboundLocalError
    else .error (.clientError code)
  | .error e => .error e
  | .ok text =>
    let outputText := "<output>" ++ text
    match extractBetween "<summary>" "</summary>" outputText with
    | none => .error .indexError
    | some summary =>
      match extractBetween "<thinking>" "</thinking>" outputText with
      | none => .error .indexError
      | some detail => .ok (summary, detail)

/-- TeamsCard abstracts the adaptive-card message built by
create_teams_message to the payload fields it embeds (title, summary,
detail, link); the fixed card envelope carries no further information. -/
structure TeamsCard where
  title : String
  summary : String
  detail : String
  url : String
deriving DecidableEq

/-- create_teams_message builds the card from the item fields it
interpolates (f-string conversion renders a missing value as "None"). -/
def create_teams_message (item : Item) : TeamsCard :=
  { title := item.rss_title
    summary := pyStr item.summary
    detail := pyStr item.detail
    url := item.rss_link }

/-- Msg is the JSON body POSTed to the webhook: the raw item dict for
Slack, or the adaptive card for Teams. -/
inductive Msg where
  | slack (item : Item)
  | teams (card : TeamsCard)
deriving DecidableEq

/-- Effect records one observable side effect of push_notification, in
order: fetching the blog content, invoking the summarization model,
attempting the DynamoDB write-back (with its caught success flag),
delivering the webhook POST, and the inter-item sleep. -/
inductive Effect where
  | fetchContent (url : String)
  | invokeModel (prompt : String)
  | storeUpdate (url : String) (notifier_name : String) (summary : String)
      (detail : String) (ok : Bool)
  | delivered (webhook_url : String) (msg : Msg)
  | slept
deriving DecidableEq

/-- NotifyEnv carries the notify-to-app Lambda's external collaborators:
the NOTIFIERS and SUMMARIZERS configuration tables (a missing key raises
KeyError), the SSM parameter fetch, get_blog_content's contract (text or
None), the Bedrock converse call (system prompt, user prompt → response
text), the DynamoDB update (its failure is caught), and the webhook POST. -/
structure NotifyEnv where
  notifiers : String → Option NotifierCfg
  summarizers : String → Option SummarizerCfg
  ssm : String → Except PyError String
  fetch : String → Option String
  llm : String → String → Except PyError String
  updateItem : String → String → String → String → Except PyError Unit
  post : String → Msg → Except PyError String

/-- processItem is one iteration of push_notification's loop over the
accepted items: resolve the notifier configuration and webhook URL, fetch
the blog content, summarize it (the content is interpolated into the
prompt even when it is None), write the summary and detail back to
DynamoDB inside a try/except (failure is only printed), format the
destination message (Teams gets the newline-converted detail inside a
card, anything else gets the raw item dict), POST it, and sleep.  The
returned trace lists the effects that happened before any uncaught
exception, which is returned alongside. -/
def processItem (env : NotifyEnv) (item : Item) : List Effect × Option PyError :=
  match env.notifiers item.rss_notifier_name with
  | none => ([], some (.keyError item.rss_notifier_name))
  | some notifier =>
    match env.ssm notifier.webhookUrlParameterName with
    | .error e => ([], some e)
    | .ok app_webhook_url =>
      let item_url := item.rss_link
      let content := env.fetch item_url
      match env.summarizers notifier.summarizerName with
      | none => ([.fetchContent item_url], some (.keyError notifier.summarizerName))
      | some summarizer =>
        let prompt := mkPrompt (pyStr content) summarizer.outputLanguage
        match summarize_blog env.llm content summarizer.outputLanguage summarizer.persona with
        | .error e => ([.fetchContent item_url, .invokeModel prompt], some e)
        | .ok (summary, detail) =>
          let item1 : Item := { item with summary := some summary, detail := some detail }
          let updOk := (env.updateItem item.rss_link item.rss_notifier_name summary detail).isOk
          let upd := Effect.storeUpdate item.rss_link item.rss_notifier_name summary detail updOk
          let msg :=
            if notifier.destination = "teams" then
              Msg.teams (create_teams_message
                { item1 with detail := some (detail.replace "。\n" "。\r") })
            else
              Msg.slack item1
          match env.post app_webhook_url msg with
          | .error e => ([.fetchContent item_url, .invokeModel prompt, upd], some e)
          | .ok _ =>
            ([.fetchContent item_url, .invokeModel prompt, upd,
              .delivered app_webhook_url msg, .slept], none)

/-- push_notification processes the item list sequentially; an uncaught
exception while processing one item propagates out of the for loop, so
the remaining items are never processed. -/
def push_notification (env : NotifyEnv) : List Item → List Effect × Option PyError
  | [] => ([], none)
  | item :: rest =>
    let r := processItem env item
    match r.2 with
    | some e => (r.1, some e)
    | none =>
      let r2 := push_notification env rest
      (r.1 ++ r2.1, r2.2)

/-- handler for the notify-to-app Lambda: filter the stream records and
push the accepted ones; the bare except swallows every exception (it only
prints the traceback), so the caller observes no per-item outcome and the
effects performed before an abort are the only trace. -/
def handler (env : NotifyEnv) (records : List StreamEntry) : List Effect :=
  (push_notification env (get_new_entries records)).1

end Notify

/-! ## Claim-support definitions -/

namespace Notify

/-- claimAccepts states, in the specification's words, when a change event
is notification-worthy: created/INSERT events always, MODIFY events
exactly when the new title or new url differs from the prior value
carried in the event, and no other event kind.  It is compared against
get_new_entries, which is translated from the source. -/
def claimAccepts (e : StreamEntry) : Bool :=
  decide (e.eventName = "INSERT" ∨
    (e.eventName = "MODIFY" ∧
      ¬(oldTitleOf e = some e.newImage.title ∧ oldUrlOf e = some e.newImage.url)))

/-- deliveredTitles lists, in order, the titles carried by the webhook
POSTs that actually happened in a trace. -/
def deliveredTitles (tr : List Effect) : List String :=
  tr.filterMap fun eff =>
    match eff with
    | .delivered _ (.slack it) => some it.rss_title
    | .delivered _ (.teams card) => some card.title
    | _ => none

/-- deliveredSummaries lists, in order, the summary field carried by the
webhook POSTs that actually happened in a trace. -/
def deliveredSummaries (tr : List Effect) : List (Option String) :=
  tr.filterMap fun eff =>
    match eff with
    | .delivered _ (.slack it) => some it.summary
    | .delivered _ (.teams card) => some (some card.summary)
    | _ => none

/-- invokedPrompts lists, in order, the prompts with which the
summarization model was invoked in a trace. -/
def invokedPrompts (tr : List Effect) : List String :=
  tr.filterMap fun eff =>
    match eff with
    | .invokeModel p => some p
    | _ => none

/-- c3item_a is a concrete accepted item whose webhook POST the c3env
oracle makes fail. -/
def c3item_a : Item :=
  { rss_category := "Whats new", rss_time := "2026-10-11T00:00:00",
    rss_title := "A", rss_link := "https://example.com/a",
    rss_notifier_name := "aws" }

/-- c3item_b is a concrete accepted item whose webhook POST succeeds. -/
def c3item_b : Item :=
  { rss_category := "Whats new", rss_time := "2026-10-11T01:00:00",
    rss_title := "B", rss_link := "https://example.com/b",
    rss_notifier_name := "aws" }

/-- c3env is a concrete environment in which every collaborator succeeds
except the webhook POST for the message carrying title "A". -/
def c3env : NotifyEnv :=
  { notifiers := fun n => if n = "aws" then
      some { webhookUrlParameterName := "p", destination := "slack", summarizerName := "s" }
    else none
    summarizers := fun n => if n = "s" then
      some { outputLanguage := "English", persona := "an engineer" }
    else none
    ssm := fun _ => .ok "https://hooks.example.com/x"
    fetch := fun _ => some "blog content"
    llm := fun _ _ => .ok "<thinking>- a point</thinking><summary>A summary.</summary>"
    updateItem := fun _ _ _ _ => .ok ()
    post := fun _ msg =>
      match msg with
      | .slack it => if it.rss_title = "A" then .error .urlError else .ok "ok"
      | .teams _ => .ok "ok" }

/-- c5item is a concrete accepted item whose content fetch returns
absent in c5env. -/
def c5item : Item :=
  { rss_category := "Whats new", rss_time := "2026-10-11T00:00:00",
    rss_title := "New feature", rss_link := "https://example.com/gone",
    rss_notifier_name := "aws" }

/-- c5env is a concrete environment in which get_blog_content returns
None for every URL and every other collaborator succeeds. -/
def c5env : NotifyEnv :=
  { notifiers := fun n => if n = "aws" then
      some { webhookUrlParameterName := "p", destination := "slack", summarizerName := "s" }
    else none
    summarizers := fun n => if n = "s" then
      some { outputLanguage := "English", persona := "an engineer" }
    else none
    ssm := fun _ => .ok "https://hooks.example.com/x"
    fetch := fun _ => none
    llm := fun _ _ => .ok "<thinking>- a point</thinking><summary>A summary.</summary>"
    updateItem := fun _ _ _ _ => .ok ()
    post := fun _ _ => .ok "ok" }

end Notify

namespace Digest

/-- c2future_record is a stored record whose pubtime lies after the
reference instant used in the C2 counterexample. -/
def c2future_record : Record :=
  { pubtime := some "2027-01-01T00:00:00" }

/-- c2now is the reference instant of the C2 counterexample. -/
def c2now : DateTime :=
  { year := 2026, month := 10, day := 12 }

/-- c7env is a concrete digest environment with an empty table and no S3
bucket. -/
def c7env : DigestEnv :=
  { scan := .ok []
    s3BucketName := none
    putObject := fun _ _ => .ok ()
    slackChannelId := none
    slackToken := none
    slackUpload := fun _ _ _ _ => .ok true
    now := { year := 2026, month := 10, day := 12 } }

/-- c10env is a concrete digest environment used to instantiate the C10
theorem. -/
def c10env : DigestEnv :=
  { scan := .ok []
    s3BucketName := none
    putObject := fun _ _ => .ok ()
    slackChannelId := none
    slackToken := none
    slackUpload := fun _ _ _ _ => .ok true
    now := { year := 2026, month := 10, day := 12 } }

end Digest

/-! ## Infrastructure lemmas -/

theorem lexLe_total : ∀ (as bs : List Char), lexLe as bs = true ∨ lexLe bs as = true
  | [], _ => Or.inl rfl
  | _ :: _, [] => Or.inr rfl
  | a :: as, b :: bs => by
    simp only [lexLe]
    rcases Nat.lt_trichotomy a.toNat b.toNat with h | h | h
    · left
      simp [h]
    · have h1 : ¬ a.toNat < b.toNat := by omega
      have h2 : ¬ b.toNat < a.toNat := by omega
      simpa [h1, h2] using lexLe_total as bs
    · have h1 : ¬ a.toNat < b.toNat := by omega
      right
      simp [h, h1]

theorem lexLe_trans : ∀ (as bs cs : List Char),
    lexLe as bs = true → lexLe bs cs = true → lexLe as cs = true
  | [], _, _ => by intro _ _; rfl
  | a :: as, [], cs => by intro h _; simp [lexLe] at h
  | a :: as, b :: bs, [] => by intro _ h; simp [lexLe] at h
  | a :: as, b :: bs, c :: cs => by
    intro h1 h2
    simp only [lexLe] at h1 h2 ⊢
    by_cases hab : a.toNat < b.toNat
    · by_cases hbc : b.toNat < c.toNat
      · have : a.toNat < c.toNat := by omega
        simp [this]
      · by_cases hcb : c.toNat < b.toNat
        · simp [hab, hbc, hcb] at h2
        · have hbceq : b.toNat = c.toNat := by omega
          have : a.toNat < c.toNat := by omega
          simp [this]
    · by_cases hba : b.toNat < a.toNat
      · simp [hab, hba] at h1
      · have habeq : a.toNat = b.toNat := by omega
        by_cases hbc : b.toNat < c.toNat
        · have : a.toNat < c.toNat := by omega
          simp [this]
        · by_cases hcb : c.toNat < b.toNat
          · simp [hab, hba, hbc, hcb] at h2
          · have h1n : ¬ a.toNat < c.toNat := by omega
            have h2n : ¬ c.toNat < a.toNat := by omega
            rw [if_neg hab, if_neg hba] at h1
            rw [if_neg hbc, if_neg hcb] at h2
            rw [if_neg h1n, if_neg h2n]
            exact lexLe_trans as bs cs h1 h2

theorem strLe_total (s t : String) : strLe s t = true ∨ strLe t s = true :=
  lexLe_total s.data t.data

theorem strLe_trans {s t u : String} (h1 : strLe s t = true) (h2 : strLe t u = true) :
    strLe s u = true :=
  lexLe_trans s.data t.data u.data h1 h2

theorem insertLe_perm (le : α → α → Bool) (a : α) :
    ∀ (l : List α), List.Perm (insertLe le a l) (a :: l)
  | [] => List.Perm.refl _
  | b :: bs => by
    simp only [insertLe]
    by_cases h : le a b = true
    · rw [if_pos h]
    · rw [if_neg h]
      exact List.Perm.trans ((insertLe_perm le a bs).cons b) (List.Perm.swap a b bs)

theorem sortLe_perm (le : α → α → Bool) :
    ∀ (l : List α), List.Perm (sortLe le l) l
  | [] => List.Perm.refl _
  | a :: as =>
    List.Perm.trans (insertLe_perm le a (sortLe le as)) ((sortLe_perm le as).cons a)

theorem mem_insertLe {le : α → α → Bool} {a x : α} :
    ∀ {l : List α}, x ∈ insertLe le a l → x = a ∨ x ∈ l := by
  intro l hx
  have := (insertLe_perm le a l).mem_iff.mp hx
  simpa using this

theorem pairwise_insertLe {le : α → α → Bool}
    (total : ∀ x y : α, le x y = true ∨ le y x = true)
    (trans : ∀ x y z : α, le x y = true → le y z = true → le x z = true) (a : α) :
    ∀ {l : List α}, List.Pairwise (fun x y => le x y = true) l →
      List.Pairwise (fun x y => le x y = true) (insertLe le a l) := by
  intro l
  induction l with
  | nil => intro _; simp [insertLe]
  | cons b bs ih =>
    intro h
    rcases List.pairwise_cons.mp h with ⟨hb, hbs⟩
    simp only [insertLe]
    by_cases hab : le a b = true
    · rw [if_pos hab]
      have : ∀ y ∈ b :: bs, le a y = true := by
        intro y hy
        rcases List.mem_cons.mp hy with rfl | hy
        · exact hab
        · exact trans a b y hab (hb y hy)
      exact List.pairwise_cons.mpr ⟨this, h⟩
    · rw [if_neg hab]
      have hba : le b a = true := by
        rcases total a b with h1 | h1
        · exact absurd h1 hab
        · exact h1
      refine List.pairwise_cons.mpr ⟨?_, ih hbs⟩
      intro y hy
      rcases mem_insertLe hy with rfl | hy
      · exact hba
      · exact hb y hy

theorem pairwise_sortLe {le : α → α → Bool}
    (total : ∀ x y : α, le x y = true ∨ le y x = true)
    (trans : ∀ x y z : α, le x y = true → le y z = true → le x z = true) :
    ∀ (l : List α), List.Pairwise (fun x y => le x y = true) (sortLe le l)
  | [] => List.Pairwise.nil
  | a :: as => pairwise_insertLe total trans a (pairwise_sortLe total trans as)


/-- Counting helper: a filter and its complement split every element
count of a list. -/
theorem count_filter_split {α : Type} [DecidableEq α] (p : α → Bool) (r : α) :
    ∀ l : List α, l.count r = (l.filter p).count r + (l.filter fun x => !(p x)).count r := by
  intro l
  induction l with
  | nil => rfl
  | cons a l ih =>
    by_cases hp : p a = true
    · simp [List.filter_cons, hp, List.count_cons, ih]
      split <;> omega
    · have hp' : p a = false := by
        cases h : p a
        · rfl
        · exact absurd h hp
      simp [List.filter_cons, hp', List.count_cons, ih]
      split <;> omega

/-- Characterization of the change-event filter: get_new_entries keeps
exactly the events claimAccepts accepts, in order, mapped to their
new_data dicts. -/
theorem get_new_entries_characterization (entries : List Notify.StreamEntry) :
    Notify.get_new_entries entries =
      (entries.filter Notify.claimAccepts).map Notify.newDataOf := by
  induction entries with
  | nil => rfl
  | cons e rest ih =>
    by_cases h1 : e.eventName = "INSERT"
    · have h2 : ¬ e.eventName = "MODIFY" := by rw [h1]; intro h; exact absurd h (by decide)
      simp [Notify.get_new_entries, Notify.claimAccepts, h1, h2, ih, List.filter_cons]
    · by_cases h2 : e.eventName = "MODIFY"
      · by_cases h3 : Notify.oldTitleOf e = some e.newImage.title
        · by_cases h4 : Notify.oldUrlOf e = some e.newImage.url
          · simp [Notify.get_new_entries, Notify.claimAccepts, Notify.newDataOf, h1, h2, h3, h4,
              ih, List.filter_cons]
          · simp [Notify.get_new_entries, Notify.claimAccepts, Notify.newDataOf, h1, h2, h3, h4,
              ih, List.filter_cons]
        · simp [Notify.get_new_entries, Notify.claimAccepts, Notify.newDataOf, h1, h2, h3,
            ih, List.filter_cons]
      · simp [Notify.get_new_entries, Notify.claimAccepts, h1, h2, ih, List.filter_cons]

/-! ## Claim theorems -/

/-- C1: get_new_entries accepts exactly the right events: every
created/INSERT event, a modified/MODIFY event if and only if its new
title or new url differs from the prior image value carried in the event,
and no event of any other kind; accepted events keep their relative input
order (the output is the order-preserving filter of the batch, mapped to
the extracted new_data). -/
theorem c1_change_event_filter_exact (entries : List Notify.StreamEntry) :
    Notify.get_new_entries entries =
      (entries.filter Notify.claimAccepts).map Notify.newDataOf :=
  get_new_entries_characterization entries

/-- C9: a MODIFY event whose OldImage is absent is always accepted by
get_new_entries, wherever it occurs in the batch: the missing prior title
and url compare unequal to any new values, so the unchanged-fields drop
rule never fires. -/
theorem c9_modify_without_old_image_accepted
    (pre post : List Notify.StreamEntry) (e : Notify.StreamEntry)
    (hev : e.eventName = "MODIFY") (hold : e.oldImage = none) :
    Notify.get_new_entries (pre ++ e :: post) =
      Notify.get_new_entries pre ++ Notify.newDataOf e :: Notify.get_new_entries post := by
  have hacc : Notify.claimAccepts e = true := by
    simp only [Notify.claimAccepts, Notify.oldTitleOf, hold, decide_eq_true_eq]
    right
    exact ⟨hev, fun h => Option.noConfusion h.1⟩
  rw [get_new_entries_characterization, get_new_entries_characterization,
    get_new_entries_characterization, List.filter_append, List.filter_cons, hacc]
  simp

/-- C9 witness: a concrete MODIFY event carrying no OldImage is accepted. -/
theorem c9_witness :
    (Notify.StreamEntry.eventName ⟨"MODIFY", ⟨"c", "p", "T", "U", "n"⟩, none⟩ = "MODIFY") ∧
    Notify.get_new_entries [⟨"MODIFY", ⟨"c", "p", "T", "U", "n"⟩, none⟩] =
      [Notify.newDataOf ⟨"MODIFY", ⟨"c", "p", "T", "U", "n"⟩, none⟩] :=
  ⟨rfl, c9_modify_without_old_image_accepted [] [] ⟨"MODIFY", ⟨"c", "p", "T", "U", "n"⟩, none⟩ rfl rfl⟩

/-- C8: group_news_by_category_type is an order-preserving partition: the
whats-new group is exactly the subsequence of records whose category is
exactly "Whats new", the others group is exactly the complementary
subsequence (including records with empty or absent category), and every
record occurrence lands in exactly one group exactly once. -/
theorem c8_grouper_partition (news_items : List Digest.Record) :
    (Digest.group_news_by_category_type news_items).whatsNew =
      news_items.filter (fun r => Digest.categoryOf r == "Whats new") ∧
    (Digest.group_news_by_category_type news_items).others =
      news_items.filter (fun r => !(Digest.categoryOf r == "Whats new")) ∧
    ∀ r : Digest.Record,
      news_items.count r =
        ((Digest.group_news_by_category_type news_items).whatsNew.count r) +
        ((Digest.group_news_by_category_type news_items).others.count r) := by
  have hmain : (Digest.group_news_by_category_type news_items).whatsNew =
      news_items.filter (fun r => Digest.categoryOf r == "Whats new") ∧
      (Digest.group_news_by_category_type news_items).others =
      news_items.filter (fun r => !(Digest.categoryOf r == "Whats new")) := by
    induction news_items with
    | nil => exact ⟨rfl, rfl⟩
    | cons item rest ih =>
      by_cases h : Digest.categoryOf item = "Whats new"
      · simp [Digest.group_news_by_category_type, List.filter_cons, h, ih.1, ih.2]
      · simp [Digest.group_news_by_category_type, List.filter_cons, h, ih.1, ih.2]
  refine ⟨hmain.1, hmain.2, fun r => ?_⟩
  rw [hmain.1, hmain.2]
  exact count_filter_split (fun r => Digest.categoryOf r == "Whats new") r news_items

/-- C2 counterexample: the aggregator applies no upper bound.  With the
reference instant 2026-10-12T00:00:00 and days = 7, a stored record whose
pubtime 2027-01-01T00:00:00 lies strictly after the reference instant is
nevertheless returned, so the claimed "pubtime ≤ now" bound does not hold
of get_news_from_last_n_days. -/
theorem c2_counterexample :
    Digest.get_news_from_last_n_days (.ok [Digest.c2future_record]) (.int 7) Digest.c2now =
      .ok [Digest.c2future_record] ∧
    strLe (Digest.pubkey Digest.c2future_record) (isoformat Digest.c2now) = false :=
  ⟨rfl, by decide⟩

/-- C2 amended: for every scan result, integer window length and
reference instant, get_news_from_last_n_days succeeds and returns exactly
the stored records that have a pubtime with now − days ≤ pubtime (lower
bound inclusive, no upper bound), sorted ascending by pubtime; records
missing a pubtime are excluded rather than causing a failure. -/
theorem c2_amended_lower_bound_only (items : List Digest.Record) (n : Int) (now : DateTime) :
    ∃ news : List Digest.Record,
      Digest.get_news_from_last_n_days (.ok items) (.int n) now = .ok news ∧
      List.Perm news (items.filter fun r =>
        r.pubtime.isSome && strLe (isoformat (subDays now n)) (Digest.pubkey r)) ∧
      List.Pairwise (fun a b => strLe (Digest.pubkey a) (Digest.pubkey b) = true) news := by
  refine ⟨Digest.scan_filter_sort (.ok items) (isoformat (subDays now n)), rfl, ?_, ?_⟩
  · exact sortLe_perm Digest.recordLe _
  · have h := @pairwise_sortLe _ Digest.recordLe
      (fun x y => strLe_total (Digest.pubkey x) (Digest.pubkey y))
      (fun x y z hxy hyz => strLe_trans hxy hyz)
      (items.filter fun r =>
        r.pubtime.isSome && strLe (isoformat (subDays now n)) (Digest.pubkey r))
    exact h

/-- C4 counterexample: generate_markdown reads the wall clock itself
(end_date = datetime.datetime.now() inside the function), so two
invocations with identical inputs (same empty record list, same group,
same days) but clock readings on different dates yield different output
text: the claim's determinism over (records, group, days) alone fails. -/
theorem c4_counterexample :
    Digest.generate_markdown [] .whatsNew 7 { year := 2026, month := 10, day := 12 } ≠
      Digest.generate_markdown [] .whatsNew 7 { year := 2026, month := 10, day := 13 } := by
  decide

/-- C4 amended: generate_markdown is deterministic as a function of its
inputs together with the wall-clock reading it takes internally, and the
clock enters only through the formatted window dates: whenever two clock
readings format to the same end date and the same window-start date, the
rendered text is byte-identical. -/
theorem c4_amended_deterministic_given_clock
    (items : List Digest.Record) (g : Digest.GroupName) (days : Int) (now1 now2 : DateTime)
    (h1 : fmtYmd now1 = fmtYmd now2)
    (h2 : fmtYmd (subDays now1 days) = fmtYmd (subDays now2 days)) :
    Digest.generate_markdown items g days now1 = Digest.generate_markdown items g days now2 := by
  simp only [Digest.generate_markdown, h1, h2]

/-- C4 witness: two clock readings on the same date but at different
times of day render identically. -/
theorem c4_witness :
    fmtYmd { year := 2026, month := 10, day := 12, hour := 5 } =
      fmtYmd { year := 2026, month := 10, day := 12, hour := 9, minute := 30 } ∧
    Digest.generate_markdown [] .whatsNew 7 { year := 2026, month := 10, day := 12, hour := 5 } =
      Digest.generate_markdown [] .whatsNew 7
        { year := 2026, month := 10, day := 12, hour := 9, minute := 30 } :=
  ⟨rfl, c4_amended_deterministic_given_clock [] .whatsNew 7 _ _ rfl rfl⟩

/-- C3 counterexample: in a concrete environment where only the webhook
POST for the first item fails, the batch run delivers nothing at all and
stops with the error, although the second item alone is delivered
successfully by the same environment — so a failure on one item does
prevent the delivery of subsequent items of the batch. -/
theorem c3_counterexample :
    (Notify.push_notification Notify.c3env [Notify.c3item_a, Notify.c3item_b]).2 =
      some PyError.urlError ∧
    Notify.deliveredTitles
      (Notify.push_notification Notify.c3env [Notify.c3item_a, Notify.c3item_b]).1 = [] ∧
    Notify.deliveredTitles (Notify.push_notification Notify.c3env [Notify.c3item_b]).1 = ["B"] :=
  ⟨rfl, rfl, rfl⟩

/-- C3 amended: the batch loop of push_notification has no per-item
isolation: whenever processing one item raises an uncaught exception, the
whole invocation stops there — the effects are exactly those of the
failed item's partial processing and no subsequent item of the batch is
processed or delivered (and the handler's bare except then swallows the
exception, so no per-item outcome is reported to the caller). -/
theorem c3_amended_failure_aborts_batch
    (env : Notify.NotifyEnv) (item : Notify.Item) (rest : List Notify.Item) (e : PyError)
    (h : (Notify.processItem env item).2 = some e) :
    Notify.push_notification env (item :: rest) = ((Notify.processItem env item).1, some e) := by
  simp [Notify.push_notification, h]

/-- C3 witness: instantiating the abort theorem at the concrete failing
batch. -/
theorem c3_witness :
    (Notify.processItem Notify.c3env Notify.c3item_a).2 = some PyError.urlError ∧
    Notify.push_notification Notify.c3env [Notify.c3item_a, Notify.c3item_b] =
      ((Notify.processItem Notify.c3env Notify.c3item_a).1, some PyError.urlError) :=
  ⟨rfl, c3_amended_failure_aborts_batch Notify.c3env Notify.c3item_a [Notify.c3item_b]
    PyError.urlError rfl⟩

/-- C5 counterexample: in a concrete environment where get_blog_content
returns None, the dispatcher does not skip enrichment: the summarization
model is still invoked (with the absent content interpolated into the
prompt as the string "None"), and the delivered notification carries the
summarizer's output rather than an omitted/empty summary. -/
theorem c5_counterexample :
    (Notify.processItem Notify.c5env Notify.c5item).2 = none ∧
    Notify.invokedPrompts (Notify.processItem Notify.c5env Notify.c5item).1 =
      [Notify.mkPrompt "None" "English"] ∧
    Notify.deliveredSummaries (Notify.processItem Notify.c5env Notify.c5item).1 =
      [some "A summary."] :=
  ⟨rfl, rfl, rfl⟩

/-- C5 amended: when the content fetch returns absent, push_notification
does not skip the enrichment step: whenever the notifier configuration,
webhook parameter and summarizer configuration resolve, the summarization
model is invoked with the prompt in which the absent content is
interpolated as the string "None"; the item is dropped only if that
summarization itself fails, and otherwise the notification is delivered
with the summarizer's (non-empty-by-construction) output. -/
theorem c5_amended_absent_content_still_summarized
    (env : Notify.NotifyEnv) (item : Notify.Item) (cfg : Notify.NotifierCfg)
    (szr : Notify.SummarizerCfg) (u : String)
    (h1 : env.notifiers item.rss_notifier_name = some cfg)
    (h2 : env.ssm cfg.webhookUrlParameterName = .ok u)
    (h3 : env.summarizers cfg.summarizerName = some szr)
    (h4 : env.fetch item.rss_link = none) :
    Notify.Effect.invokeModel (Notify.mkPrompt "None" szr.outputLanguage)
      ∈ (Notify.processItem env item).1 := by
  simp only [Notify.processItem, h1, h2, h3, h4]
  cases hs : Notify.summarize_blog env.llm none szr.outputLanguage szr.persona with
  | error e => simp [Notify.pyStr]
  | ok sd =>
    obtain ⟨s, d⟩ := sd
    cases hp : env.post u (if cfg.destination = "teams" then
        Notify.Msg.teams (Notify.create_teams_message
          { item with summary := some s, detail := some (d.replace "。\n" "。\r") })
      else Notify.Msg.slack { item with summary := some s, detail := some d }) with
    | error e => simp [hp, Notify.pyStr]
    | ok r => simp [hp, Notify.pyStr]

/-- C5 witness: instantiating the theorem at the concrete environment
whose fetch always returns None. -/
theorem c5_witness :
    Notify.c5env.fetch Notify.c5item.rss_link = none ∧
    Notify.Effect.invokeModel (Notify.mkPrompt "None" "English")
      ∈ (Notify.processItem Notify.c5env Notify.c5item).1 :=
  ⟨rfl, c5_amended_absent_content_still_summarized Notify.c5env Notify.c5item
    { webhookUrlParameterName := "p", destination := "slack", summarizerName := "s" }
    { outputLanguage := "English", persona := "an engineer" }
    "https://hooks.example.com/x" rfl rfl rfl rfl⟩

/-- C6 counterexample: a summarizer response containing neither delimiter
makes summarize_blog fail with the generic IndexError raised by
re.findall(...)[0] — not with a distinct MalformedSummaryError, which the
source never produces. -/
theorem c6_counterexample :
    Notify.summarize_blog (fun _ _ => .ok "hello world") none "en" "persona" =
      .error PyError.indexError ∧
    PyError.indexError ≠ PyError.malformedSummaryError :=
  ⟨rfl, by decide⟩

/-- C6 amended: for every summarizer response in which the summary
delimiter or the detail delimiter is missing, summarize_blog fails with
the generic IndexError (from indexing the empty re.findall result), not
with a distinct MalformedSummaryError. -/
theorem c6_amended_missing_delimiter_raises_index_error
    (llm : String → String → Except PyError String) (body : Option String)
    (language persona resp : String)
    (hllm : llm (Notify.mkSystem persona) (Notify.mkPrompt (Notify.pyStr body) language) = .ok resp)
    (hmiss : Notify.extractBetween "<summary>" "</summary>" ("<output>" ++ resp) = none ∨
      Notify.extractBetween "<thinking>" "</thinking>" ("<output>" ++ resp) = none) :
    Notify.summarize_blog llm body language persona = .error PyError.indexError := by
  simp only [Notify.summarize_blog, hllm]
  rcases hmiss with h | h
  · simp [h]
  · cases hs : Notify.extractBetween "<summary>" "</summary>" ("<output>" ++ resp) with
    | none => simp [hs]
    | some s => simp [hs, h]

/-- C6 witness: instantiating the theorem at a concrete delimiter-free
response. -/
theorem c6_witness :
    Notify.extractBetween "<summary>" "</summary>" ("<output>" ++ "no tags here") = none ∧
    Notify.summarize_blog (fun _ _ => .ok "no tags here") none "en" "p" =
      .error PyError.indexError :=
  ⟨rfl, c6_amended_missing_delimiter_raises_index_error (fun _ _ => .ok "no tags here")
    none "en" "p" "no tags here" rfl (Or.inl rfl)⟩

/-- C7: the digest handler always returns a structured status result (it
is a total function into Response; the try/except around the body turns
the only possible exception — the timedelta TypeError raised inside
get_news_from_last_n_days before its own try block — into a 500 result):
whenever the aggregator raises, the handler returns status 500 with the
stringified error; whenever the aggregator returns a record list, the
handler returns 404 if that list is empty and 200 otherwise. -/
theorem c7_handler_structured_status (env : Digest.DigestEnv) (days : PyVal) :
    (∀ e, Digest.get_news_from_last_n_days env.scan days env.now = .error e →
      Digest.handler env days = ⟨500, .failure (pyErrorStr e)⟩) ∧
    (∀ news, Digest.get_news_from_last_n_days env.scan days env.now = .ok news →
      (Digest.handler env days).statusCode = if news.isEmpty then 404 else 200) := by
  constructor
  · intro e he
    cases hd : pyTimedeltaDays days with
    | error e2 =>
      rw [Digest.get_news_from_last_n_days, hd] at he
      injection he with he2
      subst he2
      simp [Digest.handler, hd]
    | ok d =>
      rw [Digest.get_news_from_last_n_days, hd] at he
      exact Except.noConfusion he
  · intro news hn
    cases hd : pyTimedeltaDays days with
    | error e2 =>
      rw [Digest.get_news_from_last_n_days, hd] at hn
      exact Except.noConfusion hn
    | ok d =>
      rw [Digest.get_news_from_last_n_days, hd] at hn
      injection hn with hn2
      subst hn2
      simp only [Digest.handler, hd]
      by_cases hemp : (Digest.scan_filter_sort env.scan (isoformat (subDays env.now d))).isEmpty
      · simp [hemp]
      · simp [hemp]

/-- C7 witness: on a concrete empty table the aggregator returns an empty
list and the handler answers 404, and on a concrete non-integer days
value the aggregator raises TypeError and the handler answers 500. -/
theorem c7_witness :
    (Digest.get_news_from_last_n_days Digest.c7env.scan (.int 7) Digest.c7env.now = .ok [] ∧
      (Digest.handler Digest.c7env (.int 7)).statusCode = 404) ∧
    (Digest.get_news_from_last_n_days Digest.c7env.scan (.str "x") Digest.c7env.now =
        .error .typeError ∧
      Digest.handler Digest.c7env (.str "x") = ⟨500, .failure (pyErrorStr .typeError)⟩) :=
  ⟨⟨rfl, by simpa using (c7_handler_structured_status Digest.c7env (.int 7)).2 [] rfl⟩,
   ⟨rfl, (c7_handler_structured_status Digest.c7env (.str "x")).1 .typeError rfl⟩⟩

/-- C10: a failing table scan is caught inside get_news_from_last_n_days
and converted to an empty list, so for every environment and days value
the aggregator and the whole handler behave identically to an empty
table, and with a valid integer days value the handler returns the same
404 "no news found" result — a store access failure is indistinguishable
from an empty window at the public interface. -/
theorem c10_scan_error_indistinguishable_from_empty
    (env : Digest.DigestEnv) (e : PyError) (days : PyVal) :
    Digest.get_news_from_last_n_days (.error e) days env.now =
      Digest.get_news_from_last_n_days (.ok []) days env.now ∧
    Digest.handler { env with scan := .error e } days =
      Digest.handler { env with scan := .ok [] } days ∧
    (∀ n, days = PyVal.int n →
      (Digest.handler { env with scan := .error e } days).statusCode = 404) := by
  cases days with
  | int n => exact ⟨rfl, rfl, fun _ _ => rfl⟩
  | str s => exact ⟨rfl, rfl, fun n h => PyVal.noConfusion h⟩

/-- C10 witness: instantiating the theorem at a concrete environment,
scan error and days = 7. -/
theorem c10_witness :
    Digest.handler { Digest.c10env with scan := .error PyError.urlError } (.int 7) =
      Digest.handler { Digest.c10env with scan := .ok [] } (.int 7) ∧
    (Digest.handler { Digest.c10env with scan := .error PyError.urlError } (.int 7)).statusCode =
      404 :=
  ⟨(c10_scan_error_indistinguishable_from_empty Digest.c10env PyError.urlError (.int 7)).2.1,
   (c10_scan_error_indistinguishable_from_empty Digest.c10env PyError.urlError (.int 7)).2.2 7 rfl⟩
